import Mathlib

/-!
Shallow embedding of `scripts/generate-card.py` (repository `dpth`).

The script is a straight-line PIL drawing program: it allocates a fixed-size
RGB canvas, resolves fonts (with a fallback to the built-in default font when
a font file is absent), draws a grid, a connector diagram, several text
blocks and a command badge, then writes the canvas to a PNG file and prints
one confirmation line.

The embedding renders the script as a pure function from its two external
inputs — font-file availability (`os.path.exists`) and text measurement
(`draw.textbbox`, a property of the PIL font engine) — to the ordered list
of drawing operations issued against the canvas, together with the list of
font paths probed on the filesystem.  Path arithmetic (`os.path.dirname`,
`os.path.join`) and the console line are embedded separately as string
functions.
-/

namespace GenerateCard

/-- RGB color triple, as the `(r, g, b)` tuples of the script. -/
abbrev Color := Nat × Nat × Nat

/-- `W, H = 1200, 630` -/
def W : Int := 1200

/-- `W, H = 1200, 630` -/
def H : Int := 630

/-- `bg = (10, 10, 14)` -/
def bg : Color := (10, 10, 14)

/-- `accent = (59, 130, 246)` -/
def accent : Color := (59, 130, 246)

/-- `green = (34, 197, 94)` -/
def green : Color := (34, 197, 94)

/-- `white = (240, 240, 240)` -/
def white : Color := (240, 240, 240)

/-- `dim = (120, 120, 130)` -/
def dim : Color := (120, 120, 130)

/-- `surface = (22, 22, 28)` -/
def surface : Color := (22, 22, 28)

/-- The in-memory canvas: mode, pixel dimensions and background color,
as created by `Image.new`. -/
structure Canvas where
  mode : String
  width : Int
  height : Int
  background : Color
deriving DecidableEq, Repr

/-- `img = Image.new('RGB', (W, H), bg)` -/
def img : Canvas := ⟨"RGB", W, H, bg⟩

/-- A font handle: either a TrueType font loaded from a path at a pixel
size (`ImageFont.truetype`), or the built-in fallback
(`ImageFont.load_default`). -/
inductive Font where
  | truetype (path : String) (size : Nat)
  | builtinDefault
deriving DecidableEq, Repr

/-- A text bounding box as returned by `draw.textbbox((0, 0), text, font)`:
`(x0, y0, x1, y1)`. -/
structure BBox where
  x0 : Int
  y0 : Int
  x1 : Int
  y1 : Int
deriving DecidableEq, Repr

/-- The text-measurement oracle: PIL's `draw.textbbox((0, 0), ·, font=·)`. -/
abbrev Measure := String → Font → BBox

/-- One drawing operation issued against the canvas, in the order the
script issues them. -/
inductive DrawOp where
  | line (points : List (Int × Int)) (fill : Color) (lineWidth : Nat)
  | ellipse (box : Int × Int × Int × Int) (fill : Color) (outline : Color) (lineWidth : Nat)
  | roundedRectangle (box : Int × Int × Int × Int) (radius : Nat) (fill : Color) (outline : Color)
  | text (pos : Int × Int) (s : String) (fill : Color) (font : Font)
deriving DecidableEq, Repr

/-- Path probed by `get_font` for the bold case. -/
def sansBoldPath : String := "/usr/share/fonts/truetype/dejavu/DejaVuSans-Bold.ttf"

/-- Path probed by `get_font` for the regular case. -/
def sansPath : String := "/usr/share/fonts/truetype/dejavu/DejaVuSans.ttf"

/-- Path probed by `get_mono`. -/
def monoPath : String := "/usr/share/fonts/truetype/dejavu/DejaVuSansMono.ttf"

/-- `get_font(size, bold)`: chooses the path, probes it for existence and
loads it, falling back to the built-in default font.  Returns the font
together with the path probed (the filesystem read performed). -/
def get_font (ex : String → Bool) (size : Nat) (bold : Bool) : Font × String :=
  let p := if bold then sansBoldPath else sansPath
  (if ex p then Font.truetype p size else Font.builtinDefault, p)

/-- `get_mono(size)`: probes the monospace path and loads it, falling back
to the built-in default font.  Returns the font together with the path
probed. -/
def get_mono (ex : String → Bool) (size : Nat) : Font × String :=
  let p := monoPath
  (if ex p then Font.truetype p size else Font.builtinDefault, p)

/-- `text_width(text, font)`: `bbox = draw.textbbox((0,0), text, font);
return bbox[2] - bbox[0]`. -/
def text_width (m : Measure) (text : String) (font : Font) : Int :=
  let bbox := m text font
  bbox.x1 - bbox.x0

/-- `center_text(y, text, font, fill)`: measures the text, draws it at
`((W - (bbox[2]-bbox[0])) // 2, y)` (Python `//` is flooring division) and
returns `bbox[3] - bbox[1]`.  The embedding returns the drawing operation
and the returned height. -/
def center_text (m : Measure) (y : Int) (text : String) (font : Font) (fill : Color) :
    DrawOp × Int :=
  let bbox := m text font
  (DrawOp.text ((W - (bbox.x1 - bbox.x0)).fdiv 2, y) text fill font, bbox.y1 - bbox.y0)

/-- Python `range(start, stop, step)` for a positive `step`: the integers
`start + step * i` with `i` ranging over `max 0 ⌈(stop - start) / step⌉`. -/
def pyRange (start stop step : Int) : List Int :=
  (List.range ((stop - start + step - 1).fdiv step).toNat).map fun i => start + step * i

/-- The grid loops:
`for x in range(0, W, 80): draw.line([(x, 0), (x, H)], fill=(14,14,18), width=1)`
then
`for y_line in range(0, H, 80): draw.line([(0, y_line), (W, y_line)], fill=(14,14,18), width=1)`. -/
def gridOps : List DrawOp :=
  ((pyRange 0 W 80).map fun x => DrawOp.line [(x, 0), (x, H)] (14, 14, 18) 1)
    ++ ((pyRange 0 H 80).map fun y => DrawOp.line [(0, y), (W, y)] (14, 14, 18) 1)

/-- `src_dots = [(920, 160), (1020, 280), (920, 400)]` -/
def src_dots : List (Int × Int) := [(920, 160), (1020, 280), (920, 400)]

/-- `unified = (1100, 280)` -/
def unified : Int × Int := (1100, 280)

/-- The connection line drawn from a source dot to the unified dot:
`draw.line([(sx, sy), unified], fill=(30, 30, 40), width=2)`. -/
def connLine (d : Int × Int) : DrawOp :=
  DrawOp.line [d, unified] (30, 30, 40) 2

/-- A small source circle:
`draw.ellipse([sx-10, sy-10, sx+10, sy+10], fill=(30,35,50), outline=(50,55,75), width=2)`. -/
def sourceDot (d : Int × Int) : DrawOp :=
  DrawOp.ellipse (d.1 - 10, d.2 - 10, d.1 + 10, d.2 + 10) (30, 35, 50) (50, 55, 75) 2

/-- The larger accent-colored circle:
`draw.ellipse([unified[0]-16, unified[1]-16, unified[0]+16, unified[1]+16], fill=accent, outline=accent)`
(PIL's default outline width is 1). -/
def unifiedDot : DrawOp :=
  DrawOp.ellipse (unified.1 - 16, unified.2 - 16, unified.1 + 16, unified.2 + 16) accent accent 1

/-- The connector-diagram section: the loop of connection lines, then the
loop of source circles, then the unified dot. -/
def connectorOps : List DrawOp :=
  (src_dots.map connLine) ++ (src_dots.map sourceDot) ++ [unifiedDot]

/-- `lx = 80` -/
def lx : Int := 80

/-- The text/badge/footer section of the script, lines 54-90, as a straight
transcription of its `let`-chain: returns the drawing operations in order,
the font paths probed in order, and the successive values taken by the
vertical cursor `cy`. -/
def textSection (ex : String → Bool) (m : Measure) :
    List DrawOp × List String × List Int :=
  let cy0 : Int := 120
  let titleF := get_font ex 72 true
  let cy1 := cy0 + 100
  let tagF := get_font ex 34 true
  let cy2 := cy1 + 50
  let cy3 := cy2 + 65
  let descF := get_font ex 20 false
  let cy4 := cy3 + 30
  let cy5 := cy4 + 55
  let monoF := get_mono ex 24
  let cmd := "npm install dpth"
  let dollar_w := text_width m "$ " monoF.1
  let cmd_w := text_width m cmd monoF.1
  let box_w := dollar_w + cmd_w + 50
  let box_h : Int := 48
  let statF := get_font ex 14 false
  let stats_y := H - 45
  let stats := center_text m stats_y
    "TypeScript  ·  59KB  ·  86 tests  ·  MIT license  ·  github.com/rightclickable420/dpth"
    statF.1 (60, 60, 70)
  ([DrawOp.text (lx, cy0) "dpth.io" white titleF.1,
    DrawOp.text (lx, cy1) "Same person in Stripe and GitHub?" accent tagF.1,
    DrawOp.text (lx, cy2) "dpth matches them automatically." accent tagF.1,
    DrawOp.text (lx, cy3) "Pattern detection and temporal history across all your" dim descF.1,
    DrawOp.text (lx, cy4) "data sources. Pure TypeScript, zero dependencies." dim descF.1,
    DrawOp.roundedRectangle (lx, cy5, lx + box_w, cy5 + box_h) 10 surface (45, 45, 55),
    DrawOp.text (lx + 25, cy5 + 12) "$ " dim monoF.1,
    DrawOp.text (lx + 25 + dollar_w, cy5 + 12) cmd green monoF.1,
    stats.1],
   [titleF.2, tagF.2, descF.2, monoF.2, statF.2],
   [cy0, cy1, cy2, cy3, cy4, cy5])

/-- All drawing operations of one run of the script, in the order issued:
grid, connector diagram, then text/badge/footer. -/
def scriptOps (ex : String → Bool) (m : Measure) : List DrawOp :=
  gridOps ++ connectorOps ++ (textSection ex m).1

/-- The font paths probed on the filesystem during one run, in order. -/
def scriptProbes (ex : String → Bool) (m : Measure) : List String :=
  (textSection ex m).2.1

/-- The successive values taken by the vertical cursor `cy`. -/
def cySeq (ex : String → Bool) (m : Measure) : List Int :=
  (textSection ex m).2.2

/-- The font a drawing operation renders text with, if it is a text
operation. -/
def opFont : DrawOp → Option Font
  | DrawOp.text _ _ _ f => some f
  | _ => none

/-- The x-coordinate at which a drawing operation places its content
(text anchor / box left edge; 0 for the primitives that take point
lists). -/
def opX : DrawOp → Int
  | DrawOp.text p _ _ _ => p.1
  | DrawOp.roundedRectangle b _ _ _ => b.1
  | DrawOp.ellipse b _ _ _ => b.1
  | DrawOp.line _ _ _ => 0

/-- The y-coordinate at which a drawing operation places its content. -/
def opY : DrawOp → Int
  | DrawOp.text p _ _ _ => p.2
  | DrawOp.roundedRectangle b _ _ _ => b.2.1
  | DrawOp.ellipse b _ _ _ => b.2.1
  | DrawOp.line _ _ _ => 0

/-- A measurement oracle that assigns every string an empty bounding box;
used to instantiate runs at concrete inputs. -/
def mZero : Measure := fun _ _ => ⟨0, 0, 0, 0⟩

/-- A measurement oracle under which `"$ "` measures 10 pixels wide and
every other string 100 pixels wide. -/
def mUnequal : Measure := fun s _ =>
  if s = "$ " then ⟨0, 0, 10, 24⟩ else ⟨0, 0, 100, 24⟩

/-- POSIX `os.path.dirname` on character lists: everything up to the last
slash, with trailing slashes stripped unless the head is all slashes
(mirroring CPython's `posixpath.dirname`: `head = p[:i]` for `i` just past
the last slash, then `head.rstrip('/')` unless `head` is empty or all
slashes). -/
def dirnameChars (p : List Char) : List Char :=
  let headR := p.reverse.dropWhile (fun c => !(c == '/'))
  if headR.isEmpty then []
  else if headR.all (fun c => c == '/') then headR.reverse
  else (headR.dropWhile (fun c => c == '/')).reverse

/-- `os.path.dirname` on strings. -/
def dirname (p : String) : String := ⟨dirnameChars p.data⟩

/-- One step of POSIX `os.path.join` on character lists: an absolute
second component replaces the first; an empty or slash-terminated first
component is concatenated directly; otherwise a slash separator is
inserted. -/
def joinChars (a b : List Char) : List Char :=
  if b.head? = some '/' then b
  else if a.isEmpty then b
  else if a.getLast? = some '/' then a ++ b
  else a ++ '/' :: b

/-- One step of `os.path.join` on strings. -/
def pyJoin (a b : String) : String := ⟨joinChars a.data b.data⟩

/-- `out = os.path.join(os.path.dirname(os.path.dirname(__file__)), "docs", "twitter-card.png")`. -/
def outPath (file : String) : String :=
  pyJoin (pyJoin (dirname (dirname file)) "docs") "twitter-card.png"

/-- The console output of one successful run:
`print(f"Saved to {out} ({os.path.getsize(out)} bytes, {W}x{H})")`, with
`size` the byte size reported for the written file. -/
def consoleOutput (out : String) (size : Nat) : List String :=
  ["Saved to " ++ out ++ " (" ++ toString size ++ " bytes, "
    ++ toString W ++ "x" ++ toString H ++ ")"]

/-- The shape of the confirmation line:
`Saved to <out> (<size> bytes, 1200x630)`. -/
def savedLine (out : String) (size : Nat) : String :=
  "Saved to " ++ out ++ " (" ++ toString size ++ " bytes, 1200x630)"

/-- C1: the canvas the script creates (and later encodes to PNG) has
exactly width 1200 and height 630 pixels. -/
theorem canvas_dimensions : img.width = 1200 ∧ img.height = 630 := by
  exact ⟨rfl, rfl⟩

/-- C2: when every probed font path is absent (`os.path.exists` answers
false everywhere), the script still completes: the full sequence of 39
drawing operations is issued, every text operation renders with the
built-in default font, and the canvas has the same 1200×630 dimensions. -/
theorem all_fonts_absent_fallback (m : Measure) :
    (scriptOps (fun _ => false) m).length = 39 ∧
    (scriptOps (fun _ => false) m).filterMap opFont = List.replicate 8 Font.builtinDefault ∧
    img.width = 1200 ∧ img.height = 630 := by
  exact ⟨rfl, rfl, rfl, rfl⟩

/-- C3 (counterexample): the set of distinct font paths the run probes
does not have size four. -/
theorem probe_paths_not_four :
    ¬ (scriptProbes (fun _ => false) mZero).dedup.length = 4 := by
  decide

/-- C3 (amended): the script probes exactly three distinct hardcoded font
file paths (bold, regular, monospace), performing five existence probes in
total, independently of font availability and text measurement. -/
theorem probe_paths_three (ex : String → Bool) (m : Measure) :
    scriptProbes ex m = [sansBoldPath, sansBoldPath, sansPath, monoPath, sansPath] ∧
    (scriptProbes ex m).dedup.length = 3 ∧
    sansBoldPath ∈ scriptProbes ex m ∧ sansPath ∈ scriptProbes ex m ∧
    monoPath ∈ scriptProbes ex m := by
  have h : scriptProbes ex m = [sansBoldPath, sansBoldPath, sansPath, monoPath, sansPath] :=
    rfl
  refine ⟨rfl, ?_, ?_, ?_, ?_⟩ <;> rw [h] <;> decide

/-- C4: the rendering is deterministic — two runs under identical font
availability and identical text measurement issue identical sequences of
drawing operations (hence identical pixel buffers before encoding). -/
theorem render_deterministic (ex ex' : String → Bool) (m m' : Measure)
    (hex : ∀ p, ex p = ex' p) (hm : ∀ s f, m s f = m' s f) :
    scriptOps ex m = scriptOps ex' m' := by
  have h1 : ex = ex' := funext hex
  have h2 : m = m' := funext fun s => funext fun f => hm s f
  rw [h1, h2]

/-- Witness for C4 at a concrete run. -/
theorem render_deterministic_witness :
    scriptOps (fun _ => false) mZero = scriptOps (fun _ => false) mZero :=
  render_deterministic (fun _ => false) (fun _ => false) mZero mZero
    (fun _ => rfl) (fun _ _ => rfl)

/-- C6: the background grid consists of vertical lines spanning the full
canvas height at every multiple of 80 in x starting at 0 (15 lines), and
horizontal lines spanning the full canvas width at every multiple of 80 in
y starting at 0 (8 lines), all filled with the near-background color
(14, 14, 18). -/
theorem grid_every_80 :
    gridOps =
      ((List.range 15).map fun i =>
        DrawOp.line [((80 * i : Int), 0), ((80 * i : Int), H)] (14, 14, 18) 1)
      ++ ((List.range 8).map fun j =>
        DrawOp.line [(0, (80 * j : Int)), (W, (80 * j : Int))] (14, 14, 18) 1) := by
  decide

/-- C7: the connector diagram has exactly three source dots; for each the
script draws the small circle and a straight connection line to the
unified dot; the larger accent-colored unified circle is drawn, and every
connection line occurs strictly before it in the operation sequence. -/
theorem connector_lines_before_unified :
    src_dots.length = 3 ∧
    (∀ d ∈ src_dots, connLine d ∈ connectorOps ∧ sourceDot d ∈ connectorOps) ∧
    unifiedDot ∈ connectorOps ∧
    (∀ i j : Fin connectorOps.length,
      (∃ d ∈ src_dots, connectorOps.get i = connLine d) →
      connectorOps.get j = unifiedDot → (i : Nat) < (j : Nat)) := by
  decide

/-- C9 (counterexample): it is not the case that both badge text segments
are drawn starting 25 pixels inside the badge left edge: under a
measurement where `"$ "` is 10 pixels wide, the command segment starts at
x = 115, not lx + 25 = 105. -/
theorem badge_segments_not_both_at_25 :
    ¬ ((((textSection (fun _ => false) mUnequal).1.map opX)[6]? = some (lx + 25) ∧
       (((textSection (fun _ => false) mUnequal).1.map opX)[7]? = some (lx + 25)))) := by
  decide

/-- C9 (amended): the badge rectangle is exactly 50 pixels wider than the
measured widths of `"$ "` and `"npm install dpth"` combined; the `"$ "`
segment starts 25 pixels inside the left edge and the command segment
starts immediately after it (25 + width of `"$ "` pixels inside), giving
the combined text equal 25-pixel left and right padding. -/
theorem badge_geometry (ex : String → Bool) (m : Measure) :
    ((textSection ex m).1)[5]? = some (DrawOp.roundedRectangle
      (lx, 420, lx + (text_width m "$ " (get_mono ex 24).1
        + text_width m "npm install dpth" (get_mono ex 24).1 + 50), 420 + 48)
      10 surface (45, 45, 55)) ∧
    ((textSection ex m).1)[6]? = some (DrawOp.text (lx + 25, 420 + 12) "$ " dim (get_mono ex 24).1) ∧
    ((textSection ex m).1)[7]? = some (DrawOp.text
      (lx + 25 + text_width m "$ " (get_mono ex 24).1, 420 + 12)
      "npm install dpth" green (get_mono ex 24).1) ∧
    (lx + (text_width m "$ " (get_mono ex 24).1
        + text_width m "npm install dpth" (get_mono ex 24).1 + 50))
      - ((lx + 25 + text_width m "$ " (get_mono ex 24).1)
        + text_width m "npm install dpth" (get_mono ex 24).1) = 25 ∧
    (lx + 25) - lx = 25 := by
  refine ⟨rfl, rfl, rfl, by ring, by decide⟩

/-- C10: the vertical cursor `cy` takes exactly the strictly increasing
values 120, 220, 270, 335, 365, 420, and the title, two tagline lines, two
description lines and the badge rectangle are drawn at exactly these
vertical offsets in order. -/
theorem cy_strictly_increasing (ex : String → Bool) (m : Measure) :
    cySeq ex m = [120, 220, 270, 335, 365, 420] ∧
    ((textSection ex m).1.take 6).map opY = [120, 220, 270, 335, 365, 420] ∧
    List.Chain' (· < ·) (cySeq ex m) := by
  refine ⟨rfl, rfl, ?_⟩
  have h : cySeq ex m = [120, 220, 270, 335, 365, 420] := rfl
  rw [h]
  norm_num [List.chain'_cons]

/-- C5: for every string and font, the measured text width and the height
returned by `center_text` are non-negative (given the bounding-box contract
`x0 ≤ x1`, `y0 ≤ y1` of `textbbox`), measurement is deterministic (it
depends only on the bounding box reported for that string and font), the
horizontal centering x-coordinate is the integer floor of
`(W - text_width) / 2`, and the left and right margins differ by at most
one pixel. -/
theorem measure_center_floor (m m' : Measure) (s : String) (f : Font) (y : Int) (c : Color)
    (hx : (m s f).x0 ≤ (m s f).x1) (hy : (m s f).y0 ≤ (m s f).y1)
    (hagree : m' s f = m s f) :
    0 ≤ text_width m s f ∧
    0 ≤ (center_text m y s f c).2 ∧
    text_width m' s f = text_width m s f ∧
    opX (center_text m y s f c).1 = (W - text_width m s f).fdiv 2 ∧
    |opX (center_text m y s f c).1
      - (W - text_width m s f - opX (center_text m y s f c).1)| ≤ 1 := by
  refine ⟨?_, ?_, ?_, rfl, ?_⟩
  · simp only [text_width]
    omega
  · simp only [center_text]
    omega
  · simp only [text_width, hagree]
  · simp only [opX, center_text, text_width]
    rw [Int.fdiv_eq_ediv _ (by norm_num)]
    rw [abs_le]
    omega

/-- Witness for C5 at a concrete measurement oracle, string and font. -/
theorem measure_center_floor_witness :
    (mZero "dpth.io" Font.builtinDefault).x0 ≤ (mZero "dpth.io" Font.builtinDefault).x1 ∧
    (mZero "dpth.io" Font.builtinDefault).y0 ≤ (mZero "dpth.io" Font.builtinDefault).y1 ∧
    (0 ≤ text_width mZero "dpth.io" Font.builtinDefault ∧
     0 ≤ (center_text mZero 0 "dpth.io" Font.builtinDefault white).2 ∧
     text_width mZero "dpth.io" Font.builtinDefault
       = text_width mZero "dpth.io" Font.builtinDefault ∧
     opX (center_text mZero 0 "dpth.io" Font.builtinDefault white).1
       = (W - text_width mZero "dpth.io" Font.builtinDefault).fdiv 2 ∧
     |opX (center_text mZero 0 "dpth.io" Font.builtinDefault white).1
       - (W - text_width mZero "dpth.io" Font.builtinDefault
         - opX (center_text mZero 0 "dpth.io" Font.builtinDefault white).1)| ≤ 1) :=
  ⟨by decide, by decide,
    measure_center_floor mZero mZero "dpth.io" Font.builtinDefault 0 white
      (by decide) (by decide) rfl⟩

/-- `dirname` of a path of the form `l ++ "/" ++ s` where the final
component `s` is nonempty and slash-free, and `l` is nonempty and does not
end in a slash, is `l`. -/
theorem dirnameChars_append_slash (l s : List Char)
    (hs : ∀ c ∈ s, (c == '/') = false) (hl : l ≠ [])
    (hlast : l.getLast? ≠ some '/') :
    dirnameChars (l ++ '/' :: s) = l := by
  obtain ⟨c, t, hct⟩ : ∃ c t, l.reverse = c :: t := by
    cases hrev : l.reverse with
    | nil =>
      have h0 := congrArg List.reverse hrev
      simp at h0
      exact absurd h0 hl
    | cons c t => exact ⟨c, t, rfl⟩
  have hc : l.getLast? = some c := by
    rw [← List.head?_reverse, hct]
    rfl
  have hcne : (c == '/') = false := by
    cases hcc : (c == '/') with
    | false => rfl
    | true =>
      have hceq : c = '/' := by simpa using hcc
      subst hceq
      exact absurd hc hlast
  have hdrop1 : (l ++ '/' :: s).reverse.dropWhile (fun x => !(x == '/'))
      = '/' :: l.reverse := by
    rw [List.reverse_append, List.reverse_cons, List.append_assoc]
    rw [List.dropWhile_append_of_pos (by
      intro a ha
      have ham : a ∈ s := List.mem_reverse.mp ha
      simp [hs a ham])]
    simp
  have hdw : ('/' :: c :: t).dropWhile (fun x => x == '/') = c :: t := by
    rw [List.dropWhile_cons_of_pos (by decide)]
    rw [List.dropWhile_cons_of_neg (by simp [hcne])]
  simp only [dirnameChars, hdrop1, hct]
  rw [if_neg (by simp)]
  rw [if_neg (by simp [hcne])]
  rw [hdw, ← hct, List.reverse_reverse]

/-- `join` inserts a slash separator when the second component is
relative and the first is nonempty and does not end in a slash. -/
theorem joinChars_sep (a b : List Char) (hb : b.head? ≠ some '/') (ha : a ≠ [])
    (hal : a.getLast? ≠ some '/') : joinChars a b = a ++ '/' :: b := by
  unfold joinChars
  rw [if_neg hb, if_neg (by simpa using ha), if_neg hal]

/-- C8: for a script located at `<d>/scripts/generate-card.py` (with `d`
a nonempty directory path not ending in a slash), the output path the
script computes is `<d>/docs/twitter-card.png`, and — given that the
written PNG has some positive byte size `n` — the console output is
exactly one line of the form `Saved to <path> (<n> bytes, 1200x630)`. -/
theorem output_path_and_console (d : String) (n : Nat)
    (hne : d ≠ "") (hlast : d.data.getLast? ≠ some '/') (hn : 0 < n) :
    outPath (d ++ "/scripts/generate-card.py") = d ++ "/docs/twitter-card.png" ∧
    consoleOutput (outPath (d ++ "/scripts/generate-card.py")) n
      = [savedLine (d ++ "/docs/twitter-card.png") n] ∧
    (consoleOutput (outPath (d ++ "/scripts/generate-card.py")) n).length = 1 ∧
    0 < n := by
  have hl : d.data ≠ [] := by
    intro h
    exact hne (String.ext (by simpa using h))
  have h1 : (d ++ "/scripts/generate-card.py").data
      = (d.data ++ '/' :: "scripts".data) ++ '/' :: "generate-card.py".data := by
    rw [String.data_append, List.append_assoc]
    congr 1
  have hmidlast : (d.data ++ '/' :: "scripts".data).getLast? ≠ some '/' := by
    rw [List.getLast?_append]
    have hsc : ('/' :: "scripts".data : List Char).getLast? = some 's' := by decide
    rw [hsc]
    simp
  have hd1 : dirnameChars ((d ++ "/scripts/generate-card.py").data)
      = d.data ++ '/' :: "scripts".data := by
    rw [h1]
    exact dirnameChars_append_slash _ _ (by decide) (by simp) hmidlast
  have hd2 : dirnameChars (dirnameChars ((d ++ "/scripts/generate-card.py").data)) = d.data := by
    rw [hd1]
    exact dirnameChars_append_slash _ _ (by decide) hl hlast
  have hj1 : joinChars d.data ("docs".data) = d.data ++ '/' :: "docs".data :=
    joinChars_sep _ _ (by decide) hl hlast
  have hdocslast : (d.data ++ '/' :: "docs".data).getLast? ≠ some '/' := by
    rw [List.getLast?_append]
    have hsc : ('/' :: "docs".data : List Char).getLast? = some 's' := by decide
    rw [hsc]
    simp
  have hj2 : joinChars (d.data ++ '/' :: "docs".data) ("twitter-card.png".data)
      = (d.data ++ '/' :: "docs".data) ++ '/' :: "twitter-card.png".data :=
    joinChars_sep _ _ (by decide) (by simp) hdocslast
  have hout : outPath (d ++ "/scripts/generate-card.py") = d ++ "/docs/twitter-card.png" := by
    apply String.ext
    show joinChars (joinChars (dirnameChars (dirnameChars
      ((d ++ "/scripts/generate-card.py").data))) ("docs".data)) ("twitter-card.png".data)
        = (d ++ "/docs/twitter-card.png").data
    rw [hd2, hj1, hj2, String.data_append, List.append_assoc]
    congr 1
  have key : ∀ x : String,
      x ++ " bytes, " ++ toString W ++ "x" ++ toString H ++ ")" = x ++ " bytes, 1200x630)" := by
    intro x
    apply String.ext
    simp only [String.data_append, List.append_assoc]
    congr 1
  refine ⟨hout, ?_, rfl, hn⟩
  show ["Saved to " ++ outPath (d ++ "/scripts/generate-card.py") ++ " ("
      ++ toString n ++ " bytes, " ++ toString W ++ "x" ++ toString H ++ ")"]
    = [savedLine (d ++ "/docs/twitter-card.png") n]
  rw [hout]
  exact congrArg (fun z => [z])
    (key ("Saved to " ++ (d ++ "/docs/twitter-card.png") ++ " (" ++ toString n))

/-- Witness for C8 at the concrete directory `repo` and byte size 1. -/
theorem output_path_and_console_witness :
    ("repo" : String) ≠ "" ∧ ("repo" : String).data.getLast? ≠ some '/' ∧ 0 < 1 ∧
    (outPath ("repo" ++ "/scripts/generate-card.py") = "repo" ++ "/docs/twitter-card.png" ∧
     consoleOutput (outPath ("repo" ++ "/scripts/generate-card.py")) 1
       = [savedLine ("repo" ++ "/docs/twitter-card.png") 1] ∧
     (consoleOutput (outPath ("repo" ++ "/scripts/generate-card.py")) 1).length = 1 ∧
     0 < 1) :=
  ⟨by decide, by decide, by decide,
    output_path_and_console "repo" 1 (by decide) (by decide) (by decide)⟩

end GenerateCard
